import Mathlib

/-!
Verification development for `kats/detectors/detector_consts.py`.

The Python module is shallowly embedded below.  Conventions used throughout:

* Python floats are modelled as exact rationals (`ℚ`).  Float `NaN` is
  modelled as `none` in `Option ℚ` (numpy's `np.mean([])` and
  `np.var([], ddof=1)` both produce `NaN`).
* A float z-score `(v - μ) / sqrt σ²` is irrational in general, so it is
  kept symbolically as the pair `⟨v - μ, σ²⟩` (`ZScore`); the comparison
  against the spike threshold performed by `ChangePointInterval._detect_spikes`
  is decided exactly by `zGe` (squaring both sides, with the float
  conventions for division by `sqrt 0 = 0.0`: `d/0.0` is `+inf` for `d > 0`,
  `-inf` for `d < 0` and `NaN` for `d = 0`, and `NaN >= t` is `False`).
* A pandas `DataFrame` is a time column plus named value columns
  (`DFrame`); the z-score columns that `_detect_spikes` assigns into the
  frame are kept separately (`zcols`) because their cells hold symbolic
  z-scores (a cell is `none` when pandas' `concat` would fill it with `NaN`).
* Methods that mutate `self` are modelled by explicit state passing: the
  Lean function returns the post-state of the receiver.  Methods that can
  `raise` return `Except String`.
-/

/-- `np.mean` over a 1-d array: `NaN` (`none`) on an empty array. -/
def npMean (l : List ℚ) : Option ℚ :=
  if l.isEmpty then none else some (l.sum / l.length)

/-- `np.var(·, ddof=1)` (unbiased sample variance): `NaN` (`none`) when
fewer than two points are present (numpy warns and yields `NaN` there). -/
def npVarSample (l : List ℚ) : Option ℚ :=
  if l.length ≤ 1 then none
  else some (((l.map (fun x => (x - l.sum / l.length) ^ 2)).sum) / ((l.length : ℚ) - 1))

/-- The float z-score `num / sqrt varSq`, kept symbolically because the
square root is irrational in general. -/
structure ZScore where
  num : ℚ
  varSq : ℚ
deriving DecidableEq

/-- Exact decision of the float comparison `num / sqrt varSq >= thr` used by
`df.query("z_score >= ...")`:

* `varSq = 0`: the float quotient is `+inf`, `NaN` or `-inf` according to the
  sign of `num`; only `+inf` passes the comparison.
* `varSq ≠ 0 ≤ thr`: `num / sqrt varSq ≥ thr ↔ 0 ≤ num ∧ thr² · varSq ≤ num²`.
* `varSq ≠ 0, thr < 0`: the bound is negative, so the comparison holds unless
  `num` is negative with `num² ≤ thr² · varSq`. -/
abbrev zGe (num thr varSq : ℚ) : Prop :=
  (varSq = 0 ∧ 0 < num) ∨
  (varSq ≠ 0 ∧ 0 ≤ thr ∧ 0 ≤ num ∧ thr ^ 2 * varSq ≤ num ^ 2) ∨
  (varSq ≠ 0 ∧ thr < 0 ∧ (0 ≤ num ∨ num ^ 2 ≤ thr ^ 2 * varSq))

/-- `SingleSpike`: one data point whose z-score cleared the threshold.
`nSigma` carries the symbolic z-score (`row["z_score"]`). -/
structure SingleSpike where
  time : ℚ
  value : ℚ
  nSigma : ZScore
deriving DecidableEq

/-- The `_all_spikes` slot of `ChangePointInterval`: a flat list for a
univariate interval, one list per spiky column for a multivariate one. -/
inductive SpikesVal where
  | uni (l : List SingleSpike)
  | multi (l : List (List SingleSpike))
deriving DecidableEq

/-- A pandas `DataFrame` as materialised by `ChangePointInterval`: the
`time` column, the named data columns, and the z-score columns that
`_detect_spikes` assigns (separated because their cells are symbolic;
a `none` cell is a `NaN` introduced by `pd.concat` over mismatched
columns). -/
structure DFrame where
  timeCol : List ℚ
  cols : List (String × List ℚ)
  zcols : List (String × List (Option ZScore))
deriving DecidableEq

/-- `ChangePointInterval` (attrs class).  `previous_interval`, a non-owning
back-reference never read by this module's own logic, is not modelled.
Timestamps are modelled as rationals. -/
structure ChangePointInterval where
  startTime : ℚ
  endTime : ℚ
  dataDf : Option DFrame := none
  tsCols : List String := ["value"]
  numSeries : ℕ := 1
  allSpikes : Option SpikesVal := none
  spikeStdThreshold : ℚ := 2
deriving DecidableEq

/-- `TimeSeriesData` from `kats.consts` (external collaborator, spec §6):
an aligned time column with either a single unnamed value series
(univariate) or named value columns (multivariate). -/
inductive TSValue where
  | single (xs : List ℚ)
  | multi (cols : List (String × List ℚ))
deriving DecidableEq

/-- Modelled from the spec: the external time-series container — a
timestamp column plus one (univariate) or many named (multivariate) value
columns. -/
structure TSData where
  time : List ℚ
  value : TSValue
deriving DecidableEq

/-- Keep the entries of `l` at the positions where the parallel `key`
entry satisfies `p` (row filtering of a column by a predicate on the
`time` column). -/
def keepWhere (p : ℚ → Prop) [DecidablePred p] (key : List ℚ) (l : List α) : List α :=
  (key.zip l).filterMap (fun r => if p r.1 then some r.2 else none)

/-- The half-open bound test `start_time <= t < end_time` of the interval. -/
abbrev inBound (i : ChangePointInterval) (t : ℚ) : Prop :=
  i.startTime ≤ t ∧ t < i.endTime

/-- The raw value columns of a `TimeSeriesData`, as produced by
`to_dataframe()` (before renaming). -/
def rawColumns : TSValue → List (List ℚ)
  | .single xs => [xs]
  | .multi cs => cs.map Prod.snd

/-- The `data` setter of `ChangePointInterval`: for multivariate input,
capture the column names and count; rename the flattened frame's columns to
`["time"] ++ ts_cols`; keep the rows inside the half-open bound.  Note that
`_all_spikes` is carried over unchanged — the spike memo is NOT cleared by
rebinding. -/
def setData (i : ChangePointInterval) (d : TSData) : ChangePointInterval :=
  let colsCount : List String × ℕ :=
    match d.value with
    | .single _ => (i.tsCols, i.numSeries)
    | .multi cs => (cs.map Prod.fst, cs.length)
  let named := colsCount.1.zip (rawColumns d.value)
  let df : DFrame :=
    { timeCol := keepWhere (inBound i) d.time d.time
      cols := named.map (fun c => (c.1, keepWhere (inBound i) d.time c.2))
      zcols := [] }
  { i with tsCols := colsCount.1, numSeries := colsCount.2, dataDf := some df }

/-- `extend_data`: rename the new frame's columns to `["time"] ++ ts_cols`,
concatenate onto the existing frame (pandas aligns columns by name and
fills the z-score columns of the new rows with `NaN`), then re-apply the
bound filter. -/
def extendData (i : ChangePointInterval) (d : TSData) : ChangePointInterval :=
  let newCols := i.tsCols.zip (rawColumns d.value)
  let combined : DFrame :=
    match i.dataDf with
    | none => { timeCol := d.time, cols := newCols, zcols := [] }
    | some df =>
      { timeCol := df.timeCol ++ d.time
        -- data column names agree on both sides (both are ts_cols);
        -- the lookup default is unreachable for frames built by `setData`
        cols := df.cols.map (fun c => (c.1, c.2 ++ ((newCols.lookup c.1).getD [])))
        zcols := df.zcols.map (fun c => (c.1, c.2 ++ List.replicate d.time.length none)) }
  let df' : DFrame :=
    { timeCol := keepWhere (inBound i) combined.timeCol combined.timeCol
      cols := combined.cols.map (fun c => (c.1, keepWhere (inBound i) combined.timeCol c.2))
      zcols := combined.zcols.map (fun c => (c.1, keepWhere (inBound i) combined.timeCol c.2)) }
  { i with dataDf := some df' }

/-- Column lookup in a frame; the default is unreachable for the frames
built by `setData`/`extendData` (pandas would raise instead). -/
def getColD (df : DFrame) (c : String) : List ℚ :=
  (df.cols.lookup c).getD []

/-- The `data` property, univariate branch: `None` when nothing is bound,
otherwise the `value` column. -/
def dataUni (i : ChangePointInterval) : Option (List ℚ) :=
  i.dataDf.map (fun df => getColD df "value")

/-- The scalar-or-vector result of `mean_val` / `variance_val`
(`Union[float, ArrayLike]` in the source); cells are `none` for `NaN`. -/
inductive StatVal where
  | scalar (x : Option ℚ)
  | vector (xs : List (Option ℚ))
deriving DecidableEq

/-- Extract the scalar of a `StatVal` (the float branch of the union). -/
def statScalar : StatVal → Option ℚ
  | .scalar x => x
  | .vector _ => none

/-- `mean_val`: `0.0` when no data is bound; `np.mean` of each bound column
otherwise (which is `NaN` on an empty slice). -/
def meanVal (i : ChangePointInterval) : StatVal :=
  if i.numSeries = 1 then
    .scalar (match dataUni i with
      | none => some 0
      | some vals => npMean vals)
  else
    match i.dataDf with
    | none => .vector (List.replicate i.numSeries (some 0))
    | some df => .vector (i.tsCols.map (fun c => npMean (getColD df c)))

/-- `variance_val`: `0.0` when no data is bound or a single point is bound;
`np.var(·, ddof=1)` per column otherwise (`NaN` on an empty slice). -/
def varianceVal (i : ChangePointInterval) : StatVal :=
  if i.numSeries = 1 then
    .scalar (match dataUni i with
      | none => some 0
      | some vals => if vals.length = 1 then some 0 else npVarSample vals)
  else
    match i.dataDf with
    | none => .vector (List.replicate i.numSeries (some 0))
    | some df =>
      if df.timeCol.length = 1 then .vector (List.replicate i.numSeries (some 0))
      else .vector (i.tsCols.map (fun c => npVarSample (getColD df c)))

/-- `__len__`: number of materialised rows, `0` if unbound. -/
def intervalLen (i : ChangePointInterval) : ℕ :=
  match i.dataDf with
  | none => 0
  | some df => df.timeCol.length

/-- The name of the z-score column written for column `c` in the
multivariate branch of `_detect_spikes`. -/
def zColName (c : String) : String := "z_score_" ++ c

/-- Column assignment `df[name] = vals` on the z-score part of a frame:
replace the column if the name exists, append it otherwise. -/
def setZCol (zcols : List (String × List (Option ZScore))) (name : String)
    (vals : List (Option ZScore)) : List (String × List (Option ZScore)) :=
  if zcols.any (fun p => p.1 = name) then
    zcols.map (fun p => if p.1 = name then (name, vals) else p)
  else zcols ++ [(name, vals)]

/-- The spikes of one column: the rows (zipped with their symbolic
z-scores) whose z-score clears the threshold, as `SingleSpike` records. -/
def spikeRows (thr : ℚ) (times vals : List ℚ) (zs : List ZScore) : List SingleSpike :=
  (times.zip (vals.zip zs)).filterMap (fun r =>
    if zGe r.2.2.num thr r.2.2.varSq then some ⟨r.1, r.2.1, r.2.2⟩ else none)

/-- One step of the multivariate loop of `_detect_spikes`: compute the
symbolic z-scores of column `c` (the stat defaults are only read when the
column is nonempty, in which case the column mean/variance are never
`NaN`) and assign `df["z_score_<c>"]`. -/
def zApplyCol (ms ss : List (Option ℚ)) (idx : ℕ) (c : String) (df : DFrame) :
    List ZScore × DFrame :=
  let m := ((ms.get? idx).getD none).getD 0
  let s := ((ss.get? idx).getD none).getD 0
  let zs := (getColD df c).map (fun v => ZScore.mk (v - m) s)
  (zs, { df with zcols := setZCol df.zcols (zColName c) (zs.map some) })

/-- The per-column loop of the multivariate branch of `_detect_spikes`:
assign `df["z_score_<c>"]`, query the threshold, and `continue` (contribute
no entry) for a column without spikes.  The frame is threaded through
because each assignment mutates it. -/
def detectSpikesMulti (thr : ℚ) (ms ss : List (Option ℚ)) :
    List (ℕ × String) → DFrame → List (List SingleSpike) × DFrame
  | [], df => ([], df)
  | (idx, c) :: rest, df =>
    let zdf := zApplyCol ms ss idx c df
    let colSpikes := spikeRows thr df.timeCol (getColD df c) zdf.1
    let r := detectSpikesMulti thr ms ss rest zdf.2
    ((if colSpikes.isEmpty then r.1 else colSpikes :: r.1), r.2)

/-- `_detect_spikes`: raises when no data is bound; otherwise computes the
z-score column(s) (mutating the frame) and collects the rows clearing the
threshold.  Returns the spike value together with the mutated frame. -/
def detectSpikes (i : ChangePointInterval) : Except String (SpikesVal × DFrame) :=
  match i.dataDf with
  | none => .error "data must be set before spike detection"
  | some df =>
    if i.numSeries = 1 then
      match df.cols.lookup "value" with
      | none => .error "data frame has no value column"
      | some vals =>
        -- the defaults are only read when `vals` is nonempty, in which
        -- case `mean_val`/`variance_val` are never `NaN`
        let m := (statScalar (meanVal i)).getD 0
        let s := (statScalar (varianceVal i)).getD 0
        let zs := vals.map (fun v => ZScore.mk (v - m) s)
        let df' := { df with zcols := setZCol df.zcols "z_score" (zs.map some) }
        .ok (.uni (spikeRows i.spikeStdThreshold df.timeCol vals zs), df')
    else
      match meanVal i, varianceVal i with
      | .vector ms, .vector ss =>
        let r := detectSpikesMulti i.spikeStdThreshold ms ss i.tsCols.enum df
        .ok (.multi r.1, r.2)
      | _, _ =>
        .error "mean_val and variance_val should have type ArrayLike"

/-- The `spikes` property: return the memo when it is set (without looking
at the current data), otherwise run `_detect_spikes`, store the memo and
the mutated frame.  Returns the result together with the post-state of the
interval. -/
def spikesProp (i : ChangePointInterval) :
    Except String (SpikesVal × ChangePointInterval) :=
  match i.allSpikes with
  | some s => .ok (s, i)
  | none =>
    match detectSpikes i with
    | .error e => .error e
    | .ok r => .ok (r.1, { i with allSpikes := some r.1, dataDf := some r.2 })

/-- `PercentageChange`.  The constructor wires `num_series` from the
current interval; `alpha` is fixed at `0.05`.  The lazily cached slots
(`_t_score`, `_p_value`, `upper`, `lower`) are not state here: each derived
quantity is a function of the instance. -/
structure PercentageChange where
  current : ChangePointInterval
  previous : ChangePointInterval
  method : String := "fdr_bh"
  skipRescaling : Bool := false
  useCorrectedScores : Bool := false
  minPercChange : ℚ := 0
  alpha : ℚ := 1/20
  numSeries : ℕ := current.numSeries
deriving DecidableEq

/-- `_get_df`: degrees of freedom `n_1 + n_2 - 2` (a Python int promoted to
float; it is negative for two empty samples, hence the `ℤ` detour). -/
def getDf (pc : PercentageChange) : ℚ :=
  ((intervalLen pc.previous : ℤ) + (intervalLen pc.current : ℤ) - 2 : ℤ)

/-- `_pooled_stddev`, represented by its SQUARE.  The source returns
`s_p = sqrt(((n1-1)s1² + (n2-1)s2²)/(n1+n2-2))`, optionally scaled by
`sqrt(1/n1 + 1/n2)`; since those square roots are irrational the model
carries the squared value (the guard's `0.0` squares to `0`, and
`(s_p · sqrt(1/n1+1/n2))² = s_p² · (1/n1+1/n2)`).  The result is `none`
when float `NaN` would propagate (a variance of an empty bound slice, or a
vector-valued variance reaching this scalar path). -/
def pooledStddevSq (pc : PercentageChange) : Option ℚ :=
  let n1 := intervalLen pc.previous
  let n2 := intervalLen pc.current
  if n1 = 0 ∨ n2 = 0 ∨ (n1 = 1 ∧ n2 = 1) then some 0
  else
    match statScalar (varianceVal pc.previous), statScalar (varianceVal pc.current) with
    | some s1, some s2 =>
      let spSq := (((n1 : ℚ) - 1) * s1 + ((n2 : ℚ) - 1) * s2) / ((n1 : ℚ) + (n2 : ℚ) - 2)
      if pc.useCorrectedScores then some (spSq * (1 / (n1 : ℚ) + 1 / (n2 : ℚ)))
      else some spSq
    | _, _ => none

/-- Written from the SPEC's words, for comparison with `pooledStddevSq`
(same squared representation): the spec's guard reads "if both samples
have size 0, or both have size 1, pooled standard deviation is 0"; for all
other sample sizes the formula value is returned. -/
def specPooledStddevSq (pc : PercentageChange) : Option ℚ :=
  let n1 := intervalLen pc.previous
  let n2 := intervalLen pc.current
  if (n1 = 0 ∧ n2 = 0) ∨ (n1 = 1 ∧ n2 = 1) then some 0
  else
    match statScalar (varianceVal pc.previous), statScalar (varianceVal pc.current) with
    | some s1, some s2 =>
      let spSq := (((n1 : ℚ) - 1) * s1 + ((n2 : ℚ) - 1) * s2) / ((n1 : ℚ) + (n2 : ℚ) - 2)
      if pc.useCorrectedScores then some (spSq * (1 / (n1 : ℚ) + 1 / (n2 : ℚ)))
      else some spSq
    | _, _ => none

/-- A float value as produced by the t-test: `NaN`, `±inf`, a finite
rational, or the symbolic quotient `num / sqrt radicand` (with
`radicand > 0`) arising from division by a pooled standard deviation. -/
inductive FVal where
  | nan
  | pinf
  | ninf
  | fin (q : ℚ)
  | qdivSqrt (num radicand : ℚ)
deriving DecidableEq

/-- `np.abs` on an `FVal` (the radicand of a symbolic quotient is
positive, so only the numerator's sign matters). -/
def fvAbs : FVal → FVal
  | .nan => .nan
  | .pinf => .pinf
  | .ninf => .pinf
  | .fin q => .fin |q|
  | .qdivSqrt n r => .qdivSqrt |n| r

/-- Multiplication of a float by `2` (for `p_value = t.sf(...) * 2`). -/
def fvTwice : FVal → FVal
  | .nan => .nan
  | .pinf => .pinf
  | .ninf => .ninf
  | .fin q => .fin (2 * q)
  | .qdivSqrt n r => .qdivSqrt (2 * n) r

/-- `_ttest_manual`: `t = (mean_cur - mean_prev) / s_p` (float division by
`s_p = 0.0` yields `±inf`/`NaN` by sign) and `p = t.sf(|t|, df) * 2`.
`scipy.stats.t.sf`, an external numerical routine, is the parameter
`tsf`. -/
def ttestManual (tsf : FVal → ℚ → FVal) (pc : PercentageChange) : FVal × FVal :=
  let d : Option ℚ :=
    match statScalar (meanVal pc.current), statScalar (meanVal pc.previous) with
    | some a, some b => some (a - b)
    | _, _ => none
  let t : FVal :=
    match d, pooledStddevSq pc with
    | none, _ => .nan
    | some _, none => .nan
    | some dv, some s =>
      if s = 0 then (if 0 < dv then .pinf else if dv < 0 then .ninf else .nan)
      else .qdivSqrt dv s
  (t, fvTwice (tsf (fvAbs t) (getDf pc)))

/-- `_ttest_multivariate`: when both intervals hold exactly one point it
returns `t = +inf` and `p = 0` per column immediately; the remainder of
the method (per-column `scipy.stats.ttest_ind`, the
`statsmodels multipletests` rescaling and the `t.ppf` reconstruction —
external numerical collaborators) is abstracted as the parameter
`rest`. -/
def ttestMultivariate (rest : PercentageChange → List FVal × List FVal)
    (pc : PercentageChange) : List FVal × List FVal :=
  if intervalLen pc.previous = 1 ∧ intervalLen pc.current = 1 then
    (List.replicate pc.numSeries .pinf, List.replicate pc.numSeries (.fin 0))
  else rest pc

/-- The `_t_score`/`_p_value` slots after `_ttest`: a scalar pair for the
univariate path, vectors for the multivariate one. -/
inductive TPRes where
  | uni (t p : FVal)
  | multi (t p : List FVal)
deriving DecidableEq

/-- `_ttest`: dispatch to the multivariate routine when `num_series > 1`;
otherwise return the `NaN`/`0.0` sentinels when both samples are single
points, and fall through to `_ttest_manual` otherwise. -/
def ttest (rest : PercentageChange → List FVal × List FVal)
    (tsf : FVal → ℚ → FVal) (pc : PercentageChange) : TPRes :=
  if 1 < pc.numSeries then
    let r := ttestMultivariate rest pc
    .multi r.1 r.2
  else if intervalLen pc.previous = 1 ∧ intervalLen pc.current = 1 then
    .uni .nan (.fin 0)
  else
    let r := ttestManual tsf pc
    .uni r.1 r.2

/-- `ConfidenceBand`: a paired lower/upper series. -/
structure ConfidenceBand where
  lower : TSData
  upper : TSData
deriving DecidableEq

/-- `AnomalyResponse`: the rolling output bundle. -/
structure AnomalyResponse where
  scores : TSData
  confidenceBand : Option ConfidenceBand
  predictedTs : Option TSData
  anomalyMagnitudeTs : TSData
  statSigTs : Option TSData
  keyMapping : List String
  numSeries : ℕ
deriving DecidableEq

/-- The `AnomalyResponse` constructor: `key_mapping`/`num_series` start as
`[]`/`1` and are taken from the score columns when the scores are not
univariate. -/
def mkAnomalyResponse (scores : TSData) (cb : Option ConfidenceBand)
    (pred : Option TSData) (anom : TSData) (ss : Option TSData) : AnomalyResponse :=
  match scores.value with
  | .single _ => ⟨scores, cb, pred, anom, ss, [], 1⟩
  | .multi cols => ⟨scores, cb, pred, anom, ss, cols.map Prod.fst, cols.length⟩

/-- The `Union[float, ArrayLike]` of the per-point arguments of
`update`/`inplace_update`. -/
inductive UVal where
  | flt (q : ℚ)
  | arr (xs : List ℚ)
deriving DecidableEq

/-- `pd.Series(value)` for a `Union[float, ArrayLike]` value: a
one-element series for a float, the elements themselves for an array. -/
def uvalToList : UVal → List ℚ
  | .flt q => [q]
  | .arr xs => xs

/-- `_update_ts_slice`: drop the oldest point of the series and append the
new `(time, value)` pair; raises in the multivariate branch when the value
is a float, and propagates pandas' key/index errors for a malformed
column mapping. -/
def updateTsSlice (r : AnomalyResponse) (ts : TSData) (time : ℚ) (v : UVal) :
    Except String TSData :=
  let time' := ts.time.drop 1 ++ [time]
  if r.numSeries = 1 then
    match ts.value with
    | .single xs => .ok ⟨time', .single (xs.drop 1 ++ uvalToList v)⟩
    | .multi _ => .error "univariate response holding a multivariate series"
  else
    match v with
    | .flt _ => .error "value should have type ArrayLike"
    | .arr xs =>
      match ts.value with
      | .single _ => .error "multivariate response holding a univariate series"
      | .multi cols =>
        let built := (r.keyMapping.enum).mapM (fun p =>
          match cols.lookup p.2, xs.get? p.1 with
          | some col, some x => some (p.2, col.drop 1 ++ [x])
          | _, _ => none)
        match built with
        | none => .error "key mapping does not match the series columns"
        | some cs => .ok ⟨time', .multi cs⟩

/-- The confidence-band step of `update` (lower slice first, as in the
source). -/
def updateCB (r : AnomalyResponse) (o : Option ConfidenceBand) (time : ℚ)
    (ciUpper ciLower : UVal) : Except String (Option ConfidenceBand) :=
  match o with
  | none => .ok none
  | some cb =>
    match updateTsSlice r cb.lower time ciLower with
    | .error e => .error e
    | .ok lo =>
      match updateTsSlice r cb.upper time ciUpper with
      | .error e => .error e
      | .ok hi => .ok (some ⟨lo, hi⟩)

/-- The optional-component step of `update`: absent components are skipped. -/
def updateOpt (r : AnomalyResponse) (o : Option TSData) (time : ℚ) (v : UVal) :
    Except String (Option TSData) :=
  match o with
  | none => .ok none
  | some ts =>
    match updateTsSlice r ts time v with
    | .error e => .error e
    | .ok ts' => .ok (some ts')

/-- `update`: rebind every present component of the receiver to a freshly
built shifted series.  The Python method returns `None` and reassigns the
fields of `self` one by one; the returned record is the post-state of the
receiver.  (On an error raised part-way the Python object keeps the
already-reassigned fields; that partially-updated state is not modelled —
the error is simply propagated.) -/
def update (r : AnomalyResponse) (time : ℚ)
    (score ciUpper ciLower pred anomMag statSig : UVal) :
    Except String AnomalyResponse :=
  match updateTsSlice r r.scores time score with
  | .error e => .error e
  | .ok scores' =>
    match updateCB r r.confidenceBand time ciUpper ciLower with
    | .error e => .error e
    | .ok cb' =>
      match updateOpt r r.predictedTs time pred with
      | .error e => .error e
      | .ok pred' =>
        match updateTsSlice r r.anomalyMagnitudeTs time anomMag with
        | .error e => .error e
        | .ok anom' =>
          match updateOpt r r.statSigTs time statSig with
          | .error e => .error e
          | .ok ss' =>
            .ok { r with scores := scores', confidenceBand := cb',
                         predictedTs := pred', anomalyMagnitudeTs := anom',
                         statSigTs := ss' }

/-- The value written into one cell by `_inplace_update_ts` in the
univariate branch (`ts.value.loc[ts.time == time] = value`); an
array-valued write in this branch is length-checked by pandas and is not
modelled (the claims exercise floats and absent timestamps only). -/
def uvalScalar : UVal → ℚ
  | .flt q => q
  | .arr _ => 0

/-- The value written into column `i` by the multivariate branch
(`np.array(value)` broadcast row-wise; a 0-d float array broadcasts to
every column; a shape-mismatched array — pandas would raise — is not
modelled). -/
def uvalAt (v : UVal) (i : ℕ) : ℚ :=
  match v with
  | .flt q => q
  | .arr xs => xs.getD i 0

/-- The multivariate column loop of `_inplace_update_ts`, indexed so each
column receives its slot of the written row vector. -/
def inplaceCols (time : ℚ) (v : UVal) (ts : List ℚ) :
    ℕ → List (String × List ℚ) → List (String × List ℚ)
  | _, [] => []
  | i, c :: rest =>
    (c.1, List.zipWith (fun a b => if a = time then uvalAt v i else b) ts c.2) ::
      inplaceCols time v ts (i + 1) rest

/-- `_inplace_update_ts` on a present series: overwrite the value at the
rows whose timestamp equals `time` (no matching row means no change). -/
def inplaceUpdateTs (r : AnomalyResponse) (ts : TSData) (time : ℚ) (v : UVal) :
    TSData :=
  if r.numSeries = 1 then
    { ts with value :=
        match ts.value with
        | .single xs =>
          .single (List.zipWith (fun a b => if a = time then uvalScalar v else b) ts.time xs)
        | .multi cols => .multi cols }
  else
    { ts with value :=
        match ts.value with
        | .single xs => .single xs
        | .multi cols => .multi (inplaceCols time v ts.time 0 cols) }

/-- `inplace_update`: apply the in-place point write to every present
component (the `None` early-return of `_inplace_update_ts` is the
`Option.map`). -/
def inplaceUpdate (r : AnomalyResponse) (time : ℚ)
    (score ciUpper ciLower pred anomMag statSig : UVal) : AnomalyResponse :=
  { r with
    scores := inplaceUpdateTs r r.scores time score
    confidenceBand := r.confidenceBand.map (fun cb =>
      ⟨inplaceUpdateTs r cb.lower time ciLower, inplaceUpdateTs r cb.upper time ciUpper⟩)
    predictedTs := r.predictedTs.map (fun ts => inplaceUpdateTs r ts time pred)
    anomalyMagnitudeTs := inplaceUpdateTs r r.anomalyMagnitudeTs time anomMag
    statSigTs := r.statSigTs.map (fun ts => inplaceUpdateTs r ts time statSig) }

/-- Modelled from the spec: `TimeSeriesData.extend` of the external
container concatenates component-wise in time order; its optional
validation (monotonic, non-overlapping timestamps) is delegated to the
container and not modelled. -/
def tsExtend (a b : TSData) (validate : Bool) : TSData :=
  { time := a.time ++ b.time
    value :=
      match a.value, b.value with
      | .single xs, .single ys => .single (xs ++ ys)
      | .multi cs, .multi ds => .multi (cs.map (fun p => (p.1, p.2 ++ ((ds.lookup p.1).getD []))))
      | v, _ => v }

/-- The dynamically-typed `other` argument of `AnomalyResponse.extend`:
either an actual response or some other object (for the `isinstance`
check). -/
inductive ExtendArg where
  | resp (r : AnomalyResponse)
  | notResp
deriving DecidableEq

/-- `AnomalyResponse.extend`: `TypeError` for a non-response argument;
`ValueError` when the presence of `confidence_band`, `predicted_ts` or
`stat_sig_ts` differs between the two bundles (each checked independently,
in that order); otherwise concatenate component-wise.  The returned record
is the post-state of the receiver. -/
def extendResp (r : AnomalyResponse) (arg : ExtendArg) (validate : Bool) :
    Except String AnomalyResponse :=
  match arg with
  | .notResp => .error "extend must take another AnomalyResponse object"
  | .resp o =>
    if r.confidenceBand.isNone ≠ o.confidenceBand.isNone then
      .error "The confidence_band in one of the AnomalyResponse objects is None while the other is not. Either both should be None or neither."
    else if r.predictedTs.isNone ≠ o.predictedTs.isNone then
      .error "The predicted_ts in one of the AnomalyResponse objects is None while the other is not. Either both should be None or neither."
    else if r.statSigTs.isNone ≠ o.statSigTs.isNone then
      .error "The stat_sig_ts in one of the AnomalyResponse objects is None while the other is not. Either both should be None or neither."
    else
      .ok { r with
        scores := tsExtend r.scores o.scores validate
        confidenceBand :=
          match r.confidenceBand, o.confidenceBand with
          | some cb, some ocb =>
            some ⟨tsExtend cb.lower ocb.lower validate, tsExtend cb.upper ocb.upper validate⟩
          | _, _ => r.confidenceBand
        predictedTs :=
          match r.predictedTs, o.predictedTs with
          | some p, some q => some (tsExtend p q validate)
          | _, _ => r.predictedTs
        anomalyMagnitudeTs := tsExtend r.anomalyMagnitudeTs o.anomalyMagnitudeTs validate
        statSigTs :=
          match r.statSigTs, o.statSigTs with
          | some p, some q => some (tsExtend p q validate)
          | _, _ => r.statSigTs }

/-- The sub-list of spikes carrying a given value (used to count the
spikes a scenario promises). -/
def spikesWithValue (s : SpikesVal) (q : ℚ) : List SingleSpike :=
  match s with
  | .uni l => l.filterMap (fun sp => if sp.value = q then some sp else none)
  | .multi ls => ls.flatten.filterMap (fun sp => if sp.value = q then some sp else none)

/-! Concrete fixtures used by the witnesses and counterexamples. -/

/-- A never-bound interval (fresh attrs instance). -/
def unboundI : ChangePointInterval := { startTime := 0, endTime := 10 }

/-- An interval bound to a series that lies entirely outside its bound:
`data_df` is an empty frame (not `None`). -/
def c3emptyI : ChangePointInterval :=
  setData { startTime := 0, endTime := 1 } ⟨[5], .single [7]⟩

/-- The spec scenario's interval: values `[1, 1, 1, 1, 100]`, default
spike threshold `2.0`. -/
def c4i : ChangePointInterval :=
  setData { startTime := 0, endTime := 10 } ⟨[0, 1, 2, 3, 4], .single [1, 1, 1, 1, 100]⟩

/-- First binding for the stale-cache scenario: one genuine spike
(`z = 5/sqrt 6 ≈ 2.04 ≥ 2` at value `6`). -/
def c2i0 : ChangePointInterval :=
  setData { startTime := 0, endTime := 100 } ⟨[0, 1, 2, 3, 4, 5], .single [0, 0, 0, 0, 0, 6]⟩

/-- The spike list computed (and memoized) from the first binding. -/
def c2s1 : SpikesVal := .uni [⟨5, 6, ⟨5, 6⟩⟩]

/-- The interval state after the first `spikes` access. -/
def c2i1 : ChangePointInterval :=
  match spikesProp c2i0 with
  | .ok p => p.2
  | .error _ => c2i0

/-- Rebinding to an all-zero series (which has no spikes). -/
def c2i2 : ChangePointInterval :=
  setData c2i1 ⟨[0, 1, 2, 3, 4, 5], .single [0, 0, 0, 0, 0, 0]⟩

/-- A bound three-point interval with sample variance `1`. -/
def cur3pt : ChangePointInterval :=
  setData { startTime := 0, endTime := 10 } ⟨[0, 1, 2], .single [0, 1, 2]⟩

/-- Comparator with an empty (never bound) previous sample and a
three-point current sample: the code's guard fires (`n1 = 0`) though the
spec's does not. -/
def pcGuardCx : PercentageChange :=
  { current := cur3pt, previous := unboundI }

/-- A bound two-point constant interval (sample variance `0`). -/
def const2pt (v : ℚ) : ChangePointInterval :=
  setData { startTime := 0, endTime := 10 } ⟨[0, 1], .single [v, v]⟩

/-- Comparator with two two-point constant samples: outside every guard,
yet the pooled standard deviation is `0` because both variances vanish. -/
def pcZeroOutside : PercentageChange :=
  { current := const2pt 7, previous := const2pt 5 }

/-- A bound two-point interval with sample variance `2`. -/
def cur2pt : ChangePointInterval :=
  setData { startTime := 0, endTime := 10 } ⟨[0, 1], .single [0, 2]⟩

/-- Comparator for the pooled-standard-deviation witness:
`n1 = 3, s1² = 1, n2 = 2, s2² = 2`. -/
def pcFormulaW : PercentageChange :=
  { current := cur2pt, previous := cur3pt }

/-- A bound single-point univariate interval. -/
def one1pt : ChangePointInterval :=
  setData { startTime := 0, endTime := 10 } ⟨[0], .single [4]⟩

/-- Univariate comparator whose two intervals hold one point each. -/
def pcUniW : PercentageChange :=
  { current := one1pt, previous := setData { startTime := 0, endTime := 10 } ⟨[1], .single [9]⟩ }

/-- A bound single-row three-column interval. -/
def one1ptM : ChangePointInterval :=
  setData { startTime := 0, endTime := 10 }
    ⟨[0], .multi [("a", [1]), ("b", [2]), ("c", [3])]⟩

/-- Multivariate comparator (three columns) whose two intervals hold one
row each. -/
def pcMultiW : PercentageChange :=
  { current := one1ptM
    previous := setData { startTime := 0, endTime := 10 }
      ⟨[1], .multi [("a", [4]), ("b", [5]), ("c", [6])]⟩ }

/-- A two-point univariate series fixture. -/
def ts2 (a b : ℚ) : TSData := ⟨[0, 1], .single [a, b]⟩

/-- A bundle with every component present. -/
def rFull : AnomalyResponse :=
  mkAnomalyResponse (ts2 1 2) (some ⟨ts2 0 1, ts2 2 3⟩) (some (ts2 1 1)) (ts2 5 6) (some (ts2 0 0))

/-- The same bundle without its confidence band. -/
def rNoCb : AnomalyResponse :=
  mkAnomalyResponse (ts2 1 2) none (some (ts2 1 1)) (ts2 5 6) (some (ts2 0 0))

/-- A minimal one-point bundle (scores and anomaly magnitude only). -/
def c1r0 : AnomalyResponse :=
  mkAnomalyResponse ⟨[0], .single [1]⟩ none none ⟨[0], .single [3]⟩ none

/-- The interval and frame for the z-score-column witness. -/
def c9i : ChangePointInterval :=
  setData { startTime := 0, endTime := 10 } ⟨[0, 1], .single [1, 2]⟩

/-- The frame `c9i` materialises. -/
def c9df : DFrame := ⟨[0, 1], [("value", [1, 2])], []⟩

/-- The bundle state `update rFull 9 1 2 3 4 5 6` produces: every component
shifted by one and the new point appended. -/
def rFullUpd : AnomalyResponse :=
  ⟨⟨[1, 9], .single [2, 1]⟩,
   some ⟨⟨[1, 9], .single [1, 3]⟩, ⟨[1, 9], .single [3, 2]⟩⟩,
   some ⟨[1, 9], .single [1, 4]⟩,
   ⟨[1, 9], .single [6, 5]⟩,
   some ⟨[1, 9], .single [0, 6]⟩, [], 1⟩

/-- Well-formedness of a series: every value column has as many cells as
the time column (pandas keeps components aligned by construction). -/
def tsLenOk (ts : TSData) : Prop :=
  match ts.value with
  | .single xs => xs.length = ts.time.length
  | .multi cols => ∀ p ∈ cols, p.2.length = ts.time.length

/-- C3 (corrected, amended part): a `ChangePointInterval` to which no data
has ever been bound (`data_df is None`) has `length() == 0`, and both
`mean_val` and `variance_val` return `0` — a scalar `0.0` in the
univariate case, a zero vector of length `num_series` in the multivariate
case.  (The original claim extended this to intervals bound to an empty
slice; those return `NaN`, see the counterexample.) -/
theorem unbound_interval_zero_stats (i : ChangePointInterval) (h : i.dataDf = none) :
    intervalLen i = 0
    ∧ meanVal i = (if i.numSeries = 1 then .scalar (some 0)
                   else .vector (List.replicate i.numSeries (some 0)))
    ∧ varianceVal i = (if i.numSeries = 1 then .scalar (some 0)
                       else .vector (List.replicate i.numSeries (some 0))) := by
  by_cases hn : i.numSeries = 1 <;>
    simp [intervalLen, meanVal, varianceVal, dataUni, h, hn]

theorem unbound_interval_zero_stats_witness :
    unboundI.dataDf = none ∧ intervalLen unboundI = 0
    ∧ meanVal unboundI = .scalar (some 0) ∧ varianceVal unboundI = .scalar (some 0) := by
  have h := unbound_interval_zero_stats unboundI rfl
  exact ⟨rfl, h.1, by simpa [unboundI] using h.2.1, by simpa [unboundI] using h.2.2⟩

/-- C3 counterexample: an interval bound to a series whose restriction to
the bound is empty has `length() == 0`, yet `mean_val` and `variance_val`
are `NaN` (`np.mean([])`), not `0` as the claim states. -/
theorem bound_empty_interval_nan_stats_cx :
    intervalLen c3emptyI = 0 ∧ meanVal c3emptyI = .scalar none
    ∧ varianceVal c3emptyI = .scalar none
    ∧ meanVal c3emptyI ≠ .scalar (some 0) := by
  have h2 : meanVal c3emptyI = .scalar none := by
    norm_num [c3emptyI, setData, keepWhere, inBound, meanVal, dataUni, getColD,
      npMean, rawColumns]
  refine ⟨?_, h2, ?_, by rw [h2]; decide⟩
  · norm_num [c3emptyI, setData, keepWhere, inBound, intervalLen, rawColumns]
  · norm_num [c3emptyI, setData, keepWhere, inBound, varianceVal, dataUni, getColD,
      npVarSample, rawColumns]

/-- C4 (corrected, amended part): for the univariate interval bound to
`[1, 1, 1, 1, 100]` with the default spike threshold `2.0`, the spike list
is EMPTY: the z-score of the point `100` is `(396/5)/sqrt(9801/5) ≈ 1.79`,
below the threshold, because `variance_val` uses the unbiased (`ddof=1`)
estimator. -/
theorem spikes_scenario_empty :
    (spikesProp c4i).map Prod.fst = Except.ok (SpikesVal.uni [])
    ∧ ¬ zGe (396/5) 2 (9801/5) := by
  constructor
  · norm_num [c4i, spikesProp, detectSpikes, setData, keepWhere, inBound, getColD,
      meanVal, varianceVal, dataUni, npMean, npVarSample, statScalar, setZCol,
      spikeRows, zGe, rawColumns, Except.map, List.filterMap]
  · norm_num [zGe]

/-- C4 counterexample: the spike list of the `[1, 1, 1, 1, 100]` interval
contains NO spike with value `100` (the claim promised exactly one). -/
theorem spikes_scenario_no_value100_cx :
    (spikesProp c4i).map (fun p => spikesWithValue p.1 100) = Except.ok [] := by
  norm_num [c4i, spikesProp, detectSpikes, setData, keepWhere, inBound, getColD,
    meanVal, varianceVal, dataUni, npMean, npVarSample, statScalar, setZCol,
    spikeRows, zGe, rawColumns, Except.map, List.filterMap, spikesWithValue]

/-- C5 (corrected, amended part): invoking spike detection on a
`ChangePointInterval` before any data has been bound raises the
descriptive `ValueError` naming the missing data; invoking the statistics
(`mean_val`, `variance_val`) instead returns the sentinel `0`, without
raising. -/
theorem unbound_spike_error_stats_sentinel (i : ChangePointInterval)
    (h : i.dataDf = none) :
    detectSpikes i = .error "data must be set before spike detection"
    ∧ meanVal i = (if i.numSeries = 1 then .scalar (some 0)
                   else .vector (List.replicate i.numSeries (some 0)))
    ∧ varianceVal i = (if i.numSeries = 1 then .scalar (some 0)
                       else .vector (List.replicate i.numSeries (some 0))) := by
  by_cases hn : i.numSeries = 1 <;>
    simp [detectSpikes, meanVal, varianceVal, dataUni, h, hn]

theorem unbound_spike_error_stats_sentinel_witness :
    unboundI.dataDf = none
    ∧ detectSpikes unboundI = .error "data must be set before spike detection"
    ∧ meanVal unboundI = .scalar (some 0)
    ∧ varianceVal unboundI = .scalar (some 0) := by
  have h := unbound_spike_error_stats_sentinel unboundI rfl
  exact ⟨rfl, h.1, by simpa [unboundI] using h.2.1, by simpa [unboundI] using h.2.2⟩

/-- C5 counterexample: `mean_val` and `variance_val` of a never-bound
interval return the value `0.0` — they do not raise, contradicting the
claim that invoking statistics before binding is a fatal error. -/
theorem stats_unbound_return_sentinel_cx :
    meanVal unboundI = .scalar (some 0) ∧ varianceVal unboundI = .scalar (some 0)
    ∧ meanVal unboundI ≠ .scalar none := by
  have h1 : meanVal unboundI = .scalar (some 0) := by
    norm_num [unboundI, meanVal, dataUni]
  exact ⟨h1, by norm_num [unboundI, varianceVal, dataUni], by rw [h1]; decide⟩

/-- C2 (code bug evaluation): the spike memo is NOT invalidated by
rebinding.  Binding `[0,0,0,0,0,6]` and reading `spikes` memoizes one
spike (value `6`); rebinding to the all-zero series and reading `spikes`
again returns the SAME stale list, although `_detect_spikes` on the new
data would find no spike. -/
theorem spike_cache_stale_after_rebind :
    (spikesProp c2i0).map Prod.fst = Except.ok c2s1
    ∧ (spikesProp c2i2).map Prod.fst = Except.ok c2s1
    ∧ (detectSpikes c2i2).map Prod.fst = Except.ok (SpikesVal.uni [])
    ∧ c2s1 ≠ SpikesVal.uni [] := by
  refine ⟨?_, ?_, ?_, by decide⟩ <;>
    norm_num [c2i0, c2i1, c2i2, c2s1, spikesProp, detectSpikes, setData, keepWhere,
      inBound, getColD, meanVal, varianceVal, dataUni, npMean, npVarSample,
      statScalar, setZCol, spikeRows, zGe, rawColumns, Except.map, List.filterMap]

/-- C6 (corrected, amended part): the pooled standard deviation (squared
representation) equals `((n1-1)·s1² + (n2-1)·s2²)/(n1+n2-2)`, additionally
scaled by `(1/n1 + 1/n2)` exactly when `use_corrected_scores` is set, with
degrees of freedom `n1+n2-2`; the guard returns `0` when EITHER sample has
size 0 or both have size 1. -/
theorem pooled_stddev_guard_and_formula (pc : PercentageChange) (a b : ℚ)
    (ha : statScalar (varianceVal pc.previous) = some a)
    (hb : statScalar (varianceVal pc.current) = some b) :
    pooledStddevSq pc =
      (if intervalLen pc.previous = 0 ∨ intervalLen pc.current = 0
          ∨ (intervalLen pc.previous = 1 ∧ intervalLen pc.current = 1)
       then some 0
       else some (((((intervalLen pc.previous : ℚ) - 1) * a
                     + ((intervalLen pc.current : ℚ) - 1) * b)
                   / ((intervalLen pc.previous : ℚ) + (intervalLen pc.current : ℚ) - 2))
                  * (if pc.useCorrectedScores
                     then 1 / (intervalLen pc.previous : ℚ) + 1 / (intervalLen pc.current : ℚ)
                     else 1)))
    ∧ getDf pc = (intervalLen pc.previous : ℚ) + (intervalLen pc.current : ℚ) - 2 := by
  constructor
  · simp only [pooledStddevSq]
    rw [ha, hb]
    by_cases hg : (intervalLen pc.previous = 0 ∨ intervalLen pc.current = 0
        ∨ (intervalLen pc.previous = 1 ∧ intervalLen pc.current = 1))
    · simp [hg]
    · by_cases hc : pc.useCorrectedScores <;> simp [hg, hc]
  · unfold getDf
    push_cast
    ring

theorem pooled_stddev_guard_and_formula_witness :
    statScalar (varianceVal pcFormulaW.previous) = some 1
    ∧ statScalar (varianceVal pcFormulaW.current) = some 2
    ∧ pooledStddevSq pcFormulaW = some (4/3)
    ∧ getDf pcFormulaW = 3 := by
  have ha : statScalar (varianceVal pcFormulaW.previous) = some 1 := by
    norm_num [pcFormulaW, cur3pt, setData, keepWhere, inBound, varianceVal, dataUni,
      getColD, npVarSample, rawColumns, statScalar, List.filterMap]
  have hb : statScalar (varianceVal pcFormulaW.current) = some 2 := by
    norm_num [pcFormulaW, cur2pt, setData, keepWhere, inBound, varianceVal, dataUni,
      getColD, npVarSample, rawColumns, statScalar, List.filterMap]
  have h := pooled_stddev_guard_and_formula pcFormulaW 1 2 ha hb
  refine ⟨ha, hb, ?_, ?_⟩
  · rw [h.1]
    norm_num [pcFormulaW, cur3pt, cur2pt, setData, keepWhere, inBound, intervalLen,
      rawColumns, List.filterMap]
  · rw [h.2]
    norm_num [pcFormulaW, cur3pt, cur2pt, setData, keepWhere, inBound, intervalLen,
      rawColumns, List.filterMap]

/-- C6 counterexample: with `n1 = 0, n2 = 3` the code's guard fires and
returns `0`, while the spec's guard ("both size 0 or both size 1") does
not — its formula value is `2 ≠ 0`; and with `n1 = n2 = 2` over constant
samples the value is `0` outside every guard case, so `0` does not occur
"exactly" at the guard. -/
theorem pooled_stddev_spec_guard_cx :
    pooledStddevSq pcGuardCx = some 0
    ∧ specPooledStddevSq pcGuardCx = some 2
    ∧ intervalLen pcGuardCx.previous = 0 ∧ intervalLen pcGuardCx.current = 3
    ∧ pooledStddevSq pcZeroOutside = some 0
    ∧ intervalLen pcZeroOutside.previous = 2 ∧ intervalLen pcZeroOutside.current = 2 := by
  refine ⟨?_, ?_, ?_, ?_, ?_, ?_, ?_⟩ <;>
    norm_num [pcGuardCx, pcZeroOutside, cur3pt, const2pt, unboundI, setData, keepWhere,
      inBound, pooledStddevSq, specPooledStddevSq, intervalLen, varianceVal, dataUni,
      getColD, npVarSample, rawColumns, statScalar, List.filterMap]

/-- C7 (confirmed): when `previous` and `current` each hold exactly one
point, `_ttest` yields the `NaN` t-score and `0.0` p-value in the
univariate case, and `+inf` per column and `0.0` per column — vectors of
length `series_count` — in the multivariate case. -/
theorem ttest_single_point_sentinels (rest : PercentageChange → List FVal × List FVal)
    (tsf : FVal → ℚ → FVal) (pc : PercentageChange)
    (h1 : intervalLen pc.previous = 1) (h2 : intervalLen pc.current = 1) :
    ttest rest tsf pc =
      if 1 < pc.numSeries then
        .multi (List.replicate pc.numSeries .pinf) (List.replicate pc.numSeries (.fin 0))
      else .uni .nan (.fin 0) := by
  unfold ttest ttestMultivariate
  by_cases hm : 1 < pc.numSeries <;> simp [hm, h1, h2]

theorem ttest_single_point_sentinels_witness :
    intervalLen pcUniW.previous = 1 ∧ intervalLen pcUniW.current = 1
    ∧ intervalLen pcMultiW.previous = 1 ∧ intervalLen pcMultiW.current = 1
    ∧ ttest (fun _ => ([], [])) (fun f _ => f) pcUniW = .uni .nan (.fin 0)
    ∧ ttest (fun _ => ([], [])) (fun f _ => f) pcMultiW
      = .multi (List.replicate 3 .pinf) (List.replicate 3 (.fin 0)) := by
  have hp1 : intervalLen pcUniW.previous = 1 := by
    norm_num [pcUniW, one1pt, setData, keepWhere, inBound, intervalLen, rawColumns,
      List.filterMap]
  have hc1 : intervalLen pcUniW.current = 1 := by
    norm_num [pcUniW, one1pt, setData, keepWhere, inBound, intervalLen, rawColumns,
      List.filterMap]
  have hp3 : intervalLen pcMultiW.previous = 1 := by
    norm_num [pcMultiW, one1ptM, setData, keepWhere, inBound, intervalLen, rawColumns,
      List.filterMap]
  have hc3 : intervalLen pcMultiW.current = 1 := by
    norm_num [pcMultiW, one1ptM, setData, keepWhere, inBound, intervalLen, rawColumns,
      List.filterMap]
  refine ⟨hp1, hc1, hp3, hc3, ?_, ?_⟩
  · rw [ttest_single_point_sentinels (fun _ => ([], [])) (fun f _ => f) pcUniW hp1 hc1]
    norm_num [pcUniW, one1pt, setData, rawColumns]
  · rw [ttest_single_point_sentinels (fun _ => ([], [])) (fun f _ => f) pcMultiW hp3 hc3]
    norm_num [pcMultiW, one1ptM, setData, rawColumns]

/-- C8 (confirmed): `AnomalyResponse.extend` raises for a non-response
argument, and raises a structural error whenever the presence of the
confidence band, the predicted series or the significance series differs
between the two bundles, each checked independently. -/
theorem extend_structural_mismatch_raises (r o : AnomalyResponse) (v : Bool) :
    (extendResp r .notResp v = .error "extend must take another AnomalyResponse object")
    ∧ (r.confidenceBand.isNone ≠ o.confidenceBand.isNone →
        extendResp r (.resp o) v = .error "The confidence_band in one of the AnomalyResponse objects is None while the other is not. Either both should be None or neither.")
    ∧ (r.confidenceBand.isNone = o.confidenceBand.isNone →
       r.predictedTs.isNone ≠ o.predictedTs.isNone →
        extendResp r (.resp o) v = .error "The predicted_ts in one of the AnomalyResponse objects is None while the other is not. Either both should be None or neither.")
    ∧ (r.confidenceBand.isNone = o.confidenceBand.isNone →
       r.predictedTs.isNone = o.predictedTs.isNone →
       r.statSigTs.isNone ≠ o.statSigTs.isNone →
        extendResp r (.resp o) v = .error "The stat_sig_ts in one of the AnomalyResponse objects is None while the other is not. Either both should be None or neither.") := by
  refine ⟨rfl, ?_, ?_, ?_⟩
  · intro h1
    simp [extendResp, h1]
  · intro h1 h2
    simp [extendResp, h1, h2]
  · intro h1 h2 h3
    simp [extendResp, h1, h2, h3]

theorem extend_structural_mismatch_raises_witness :
    rFull.confidenceBand.isNone ≠ rNoCb.confidenceBand.isNone
    ∧ extendResp rFull (.resp rNoCb) true = .error "The confidence_band in one of the AnomalyResponse objects is None while the other is not. Either both should be None or neither."
    ∧ extendResp rFull .notResp true = .error "extend must take another AnomalyResponse object" := by
  have hne : rFull.confidenceBand.isNone ≠ rNoCb.confidenceBand.isNone := by
    simp [rFull, rNoCb, mkAnomalyResponse, ts2]
  exact ⟨hne, (extend_structural_mismatch_raises rFull rNoCb true).2.1 hne,
    (extend_structural_mismatch_raises rFull rNoCb true).1⟩

/-- An in-place point write leaves a column untouched when the written
timestamp occurs nowhere in the (equally long) time column. -/
theorem zipWith_write_of_not_mem (t c : ℚ) :
    ∀ (ts xs : List ℚ), t ∉ ts → xs.length = ts.length →
      List.zipWith (fun a b => if a = t then c else b) ts xs = xs := by
  intro ts
  induction ts with
  | nil =>
    intro xs _ hlen
    rw [List.length_eq_zero.mp hlen]
    rfl
  | cons a ts ih =>
    intro xs hmem hlen
    cases xs with
    | nil => simp at hlen
    | cons x xs =>
      have hne : a ≠ t := fun h => hmem (h ▸ List.mem_cons_self a ts)
      simp only [List.zipWith_cons_cons, if_neg hne]
      rw [ih xs (fun h => hmem (List.mem_cons_of_mem a h)) (by simpa using hlen)]

/-- The multivariate in-place column loop is the identity when the
timestamp is absent. -/
theorem inplaceCols_of_not_mem (t : ℚ) (v : UVal) (ts : List ℚ) (hmem : t ∉ ts) :
    ∀ (cols : List (String × List ℚ)) (k : ℕ),
      (∀ p ∈ cols, p.2.length = ts.length) → inplaceCols t v ts k cols = cols := by
  intro cols
  induction cols with
  | nil => intro k _; rfl
  | cons c rest ih =>
    intro k hlen
    obtain ⟨name, col⟩ := c
    simp only [inplaceCols]
    rw [zipWith_write_of_not_mem t (uvalAt v k) ts col hmem
        (hlen (name, col) (List.mem_cons_self _ _)),
      ih (k + 1) (fun p hp => hlen p (List.mem_cons_of_mem _ hp))]

/-- `_inplace_update_ts` is the identity on a well-formed series not
containing the written timestamp. -/
theorem inplaceUpdateTs_of_absent (r : AnomalyResponse) (ts : TSData) (t : ℚ)
    (v : UVal) (hmem : t ∉ ts.time) (hlen : tsLenOk ts) :
    inplaceUpdateTs r ts t v = ts := by
  obtain ⟨time, val⟩ := ts
  simp only [tsLenOk] at hlen
  unfold inplaceUpdateTs
  cases val with
  | single xs =>
    by_cases hn : r.numSeries = 1
    · simp only [hn, ite_true]
      rw [zipWith_write_of_not_mem t (uvalScalar v) time xs hmem hlen]
    · simp [hn]
  | multi cols =>
    by_cases hn : r.numSeries = 1
    · simp [hn]
    · simp only [hn, ite_false]
      rw [inplaceCols_of_not_mem t v time hmem cols 0 hlen]

/-- C10 (confirmed): `inplace_update` with a timestamp that occurs in no
present component series is a silent no-op: every component is unchanged
and no error is raised. -/
theorem inplace_update_missing_time_noop (r : AnomalyResponse) (t : ℚ)
    (sc cu cl pr am ss : UVal)
    (hs : tsLenOk r.scores ∧ t ∉ r.scores.time)
    (ha : tsLenOk r.anomalyMagnitudeTs ∧ t ∉ r.anomalyMagnitudeTs.time)
    (hcb : ∀ cb ∈ r.confidenceBand,
      (tsLenOk cb.lower ∧ t ∉ cb.lower.time) ∧ (tsLenOk cb.upper ∧ t ∉ cb.upper.time))
    (hp : ∀ p ∈ r.predictedTs, tsLenOk p ∧ t ∉ p.time)
    (hss : ∀ p ∈ r.statSigTs, tsLenOk p ∧ t ∉ p.time) :
    inplaceUpdate r t sc cu cl pr am ss = r := by
  unfold inplaceUpdate
  have h1 := inplaceUpdateTs_of_absent r r.scores t sc hs.2 hs.1
  have h2 := inplaceUpdateTs_of_absent r r.anomalyMagnitudeTs t am ha.2 ha.1
  have h3 : r.confidenceBand.map (fun cb =>
      (⟨inplaceUpdateTs r cb.lower t cl, inplaceUpdateTs r cb.upper t cu⟩ : ConfidenceBand))
      = r.confidenceBand := by
    cases hc : r.confidenceBand with
    | none => rfl
    | some cb =>
      have h := hcb cb (by rw [hc]; rfl)
      simp [inplaceUpdateTs_of_absent r cb.lower t cl h.1.2 h.1.1,
        inplaceUpdateTs_of_absent r cb.upper t cu h.2.2 h.2.1]
  have h4 : r.predictedTs.map (fun ts => inplaceUpdateTs r ts t pr) = r.predictedTs := by
    cases hc : r.predictedTs with
    | none => rfl
    | some p =>
      have h := hp p (by rw [hc]; rfl)
      simp [inplaceUpdateTs_of_absent r p t pr h.2 h.1]
  have h5 : r.statSigTs.map (fun ts => inplaceUpdateTs r ts t ss) = r.statSigTs := by
    cases hc : r.statSigTs with
    | none => rfl
    | some p =>
      have h := hss p (by rw [hc]; rfl)
      simp [inplaceUpdateTs_of_absent r p t ss h.2 h.1]
  rw [h1, h2, h3, h4, h5]

theorem inplace_update_missing_time_noop_witness :
    (5 : ℚ) ∉ rFull.scores.time
    ∧ inplaceUpdate rFull 5 (.flt 1) (.flt 2) (.flt 3) (.flt 4) (.flt 5) (.flt 6) = rFull := by
  constructor
  · norm_num [rFull, mkAnomalyResponse, ts2]
  · exact inplace_update_missing_time_noop rFull 5 _ _ _ _ _ _
      (by norm_num [rFull, mkAnomalyResponse, ts2, tsLenOk])
      (by norm_num [rFull, mkAnomalyResponse, ts2, tsLenOk])
      (by intro cb hcb; revert hcb; norm_num [rFull, mkAnomalyResponse, ts2];
          rintro rfl; norm_num [ts2, tsLenOk])
      (by intro p hps; revert hps; norm_num [rFull, mkAnomalyResponse, ts2];
          rintro rfl; norm_num [ts2, tsLenOk])
      (by intro p hps; revert hps; norm_num [rFull, mkAnomalyResponse, ts2];
          rintro rfl; norm_num [ts2, tsLenOk])


/-- C1 (corrected, amended part): `update` mutates the receiver (it
returns `None`, not a new bundle): in the post-state every present
component series has been replaced by the freshly built series with the
oldest point dropped and the new `(time, value)` pair appended
(`_update_ts_slice`), absent components stay absent, and
`num_series`/`key_mapping` are unchanged. -/
theorem update_rebuilds_components (r : AnomalyResponse) (t : ℚ)
    (sc cu cl pr am ss : UVal) (r' : AnomalyResponse)
    (h : update r t sc cu cl pr am ss = .ok r') :
    updateTsSlice r r.scores t sc = .ok r'.scores
    ∧ (r.confidenceBand = none → r'.confidenceBand = none)
    ∧ (∀ cb0, r.confidenceBand = some cb0 →
        ∃ lo hi, r'.confidenceBand = some ⟨lo, hi⟩
          ∧ updateTsSlice r cb0.lower t cl = .ok lo
          ∧ updateTsSlice r cb0.upper t cu = .ok hi)
    ∧ (r.predictedTs = none → r'.predictedTs = none)
    ∧ (∀ p0, r.predictedTs = some p0 →
        ∃ p1, r'.predictedTs = some p1 ∧ updateTsSlice r p0 t pr = .ok p1)
    ∧ updateTsSlice r r.anomalyMagnitudeTs t am = .ok r'.anomalyMagnitudeTs
    ∧ (r.statSigTs = none → r'.statSigTs = none)
    ∧ (∀ s0, r.statSigTs = some s0 →
        ∃ s1, r'.statSigTs = some s1 ∧ updateTsSlice r s0 t ss = .ok s1)
    ∧ r'.numSeries = r.numSeries ∧ r'.keyMapping = r.keyMapping := by
  simp only [update] at h
  cases h1 : updateTsSlice r r.scores t sc with
  | error e => exact absurd (h1 ▸ h) (by exact fun hx => Except.noConfusion hx)
  | ok scoresN =>
  simp only [h1] at h
  cases h2 : updateCB r r.confidenceBand t cu cl with
  | error e => exact absurd (h2 ▸ h) (by exact fun hx => Except.noConfusion hx)
  | ok cbN =>
  simp only [h2] at h
  cases h3 : updateOpt r r.predictedTs t pr with
  | error e => exact absurd (h3 ▸ h) (by exact fun hx => Except.noConfusion hx)
  | ok predN =>
  simp only [h3] at h
  cases h4 : updateTsSlice r r.anomalyMagnitudeTs t am with
  | error e => exact absurd (h4 ▸ h) (by exact fun hx => Except.noConfusion hx)
  | ok anomN =>
  simp only [h4] at h
  cases h5 : updateOpt r r.statSigTs t ss with
  | error e => exact absurd (h5 ▸ h) (by exact fun hx => Except.noConfusion hx)
  | ok ssN =>
  simp only [h5, Except.ok.injEq] at h
  subst h
  refine ⟨by simpa using h1, ?_, ?_, ?_, ?_, by simpa using h4, ?_, ?_, rfl, rfl⟩
  · intro hnone
    rw [hnone] at h2
    simp only [updateCB, Except.ok.injEq] at h2
    exact h2.symm
  · intro cb0 hsome
    rw [hsome] at h2
    simp only [updateCB] at h2
    cases h2a : updateTsSlice r cb0.lower t cl with
    | error e => exact absurd (h2a ▸ h2) (fun hx => Except.noConfusion hx)
    | ok lo =>
      simp only [h2a] at h2
      cases h2b : updateTsSlice r cb0.upper t cu with
      | error e => exact absurd (h2b ▸ h2) (fun hx => Except.noConfusion hx)
      | ok hi =>
        simp only [h2b, Except.ok.injEq] at h2
        exact ⟨lo, hi, by simp [← h2], rfl, rfl⟩
  · intro hnone
    rw [hnone] at h3
    simp only [updateOpt, Except.ok.injEq] at h3
    exact h3.symm
  · intro p0 hsome
    rw [hsome] at h3
    simp only [updateOpt] at h3
    cases h3a : updateTsSlice r p0 t pr with
    | error e => exact absurd (h3a ▸ h3) (fun hx => Except.noConfusion hx)
    | ok p1 =>
      simp only [h3a, Except.ok.injEq] at h3
      exact ⟨p1, by simp [← h3], rfl⟩
  · intro hnone
    rw [hnone] at h5
    simp only [updateOpt, Except.ok.injEq] at h5
    exact h5.symm
  · intro s0 hsome
    rw [hsome] at h5
    simp only [updateOpt] at h5
    cases h5a : updateTsSlice r s0 t ss with
    | error e => exact absurd (h5a ▸ h5) (fun hx => Except.noConfusion hx)
    | ok s1 =>
      simp only [h5a, Except.ok.injEq] at h5
      exact ⟨s1, by simp [← h5], rfl⟩

theorem update_rebuilds_components_witness :
    update rFull 9 (.flt 1) (.flt 2) (.flt 3) (.flt 4) (.flt 5) (.flt 6)
      = Except.ok rFullUpd
    ∧ updateTsSlice rFull rFull.scores 9 (.flt 1) = .ok rFullUpd.scores
    ∧ updateTsSlice rFull rFull.anomalyMagnitudeTs 9 (.flt 5) = .ok rFullUpd.anomalyMagnitudeTs := by
  have hEq : update rFull 9 (.flt 1) (.flt 2) (.flt 3) (.flt 4) (.flt 5) (.flt 6)
      = Except.ok rFullUpd := by
    norm_num [rFull, rFullUpd, mkAnomalyResponse, ts2, update, updateTsSlice,
      updateCB, updateOpt, uvalToList]
  have h := update_rebuilds_components rFull 9 (.flt 1) (.flt 2) (.flt 3) (.flt 4)
    (.flt 5) (.flt 6) rFullUpd hEq
  exact ⟨hEq, h.1, h.2.2.2.2.2.1⟩

/-- C1 counterexample: after `update` on a concrete one-point bundle the
receiver's `scores` series differs from the original `scores` series,
refuting "after the call, every component series of the original bundle is
unchanged". -/
theorem update_changes_receiver_scores_cx :
    (update c1r0 1 (.flt 2) (.flt 0) (.flt 0) (.flt 0) (.flt 4) (.flt 0)).map
        (fun x => x.scores) = Except.ok ⟨[1], .single [2]⟩
    ∧ (⟨[1], .single [2]⟩ : TSData) ≠ c1r0.scores := by
  constructor
  · norm_num [c1r0, mkAnomalyResponse, update, updateTsSlice, updateCB, updateOpt,
      uvalToList, Except.map]
  · norm_num [c1r0, mkAnomalyResponse]

/-- Enumerating and then projecting away the indices is a plain map. -/
theorem enumFrom_map_snd (f : α → β) :
    ∀ (n : ℕ) (l : List α), (List.enumFrom n l).map (fun p => f p.2) = l.map f := by
  intro n l
  induction l generalizing n with
  | nil => rfl
  | cons a l ih => simp [List.enumFrom, ih]

/-- Assigning a fresh z-score column appends it. -/
theorem setZCol_fresh (zcols : List (String × List (Option ZScore))) (name : String)
    (v : List (Option ZScore)) (hf : ∀ q ∈ zcols, q.1 ≠ name) :
    setZCol zcols name v = zcols ++ [(name, v)] := by
  unfold setZCol
  have hany : zcols.any (fun p => decide (p.1 = name)) = false := by
    rw [List.any_eq_false]
    intro x hx
    simp [hf x hx]
  simp [hany]

/-- `zApplyCol` only touches the z-score columns, appending a fresh one. -/
theorem zApplyCol_frame (ms ss : List (Option ℚ)) (idx : ℕ) (c : String)
    (df : DFrame) (hf : ∀ q ∈ df.zcols, q.1 ≠ zColName c) :
    (zApplyCol ms ss idx c df).2.timeCol = df.timeCol
    ∧ (zApplyCol ms ss idx c df).2.cols = df.cols
    ∧ (zApplyCol ms ss idx c df).2.zcols.map Prod.fst
      = df.zcols.map Prod.fst ++ [zColName c] := by
  unfold zApplyCol
  refine ⟨rfl, rfl, ?_⟩
  simp [setZCol_fresh _ _ _ hf]

/-- The multivariate spike loop leaves the time and data columns unchanged
and appends exactly one z-score column per visited column. -/
theorem detectSpikesMulti_frame (thr : ℚ) (ms ss : List (Option ℚ)) :
    ∀ (l : List (ℕ × String)) (df : DFrame),
      (∀ p ∈ l, ∀ q ∈ df.zcols, q.1 ≠ zColName p.2) →
      (l.map (fun p => zColName p.2)).Nodup →
      (detectSpikesMulti thr ms ss l df).2.timeCol = df.timeCol
      ∧ (detectSpikesMulti thr ms ss l df).2.cols = df.cols
      ∧ (detectSpikesMulti thr ms ss l df).2.zcols.map Prod.fst
        = df.zcols.map Prod.fst ++ l.map (fun p => zColName p.2) := by
  intro l
  induction l with
  | nil =>
    intro df _ _
    exact ⟨rfl, rfl, by simp [detectSpikesMulti]⟩
  | cons hd rest ih =>
    intro df hf hnd
    obtain ⟨idx, c⟩ := hd
    have hfresh : ∀ q ∈ df.zcols, q.1 ≠ zColName c :=
      fun q hq => hf (idx, c) (List.mem_cons_self _ _) q hq
    have hhd : zColName c ∉ rest.map (fun p => zColName p.2) := (List.nodup_cons.mp hnd).1
    have hnd' := (List.nodup_cons.mp hnd).2
    obtain ⟨z1, z2, z3⟩ := zApplyCol_frame ms ss idx c df hfresh
    have hf' : ∀ p ∈ rest, ∀ q ∈ (zApplyCol ms ss idx c df).2.zcols, q.1 ≠ zColName p.2 := by
      intro p hp q hq
      have hq' : q.1 ∈ (zApplyCol ms ss idx c df).2.zcols.map Prod.fst :=
        List.mem_map_of_mem Prod.fst hq
      rw [z3] at hq'
      rcases List.mem_append.mp hq' with hq1 | hq2
      · obtain ⟨q0, hq0, hq0e⟩ := List.mem_map.mp hq1
        exact hq0e ▸ hf p (List.mem_cons_of_mem _ hp) q0 hq0
      · have : q.1 = zColName c := by simpa using hq2
        rw [this]
        intro hcontra
        exact hhd (hcontra ▸ List.mem_map_of_mem (fun p => zColName p.2) hp)
    obtain ⟨t1, t2, t3⟩ := ih (zApplyCol ms ss idx c df).2 hf' hnd'
    refine ⟨?_, ?_, ?_⟩
    · show (detectSpikesMulti thr ms ss rest (zApplyCol ms ss idx c df).2).2.timeCol = _
      rw [t1, z1]
    · show (detectSpikesMulti thr ms ss rest (zApplyCol ms ss idx c df).2).2.cols = _
      rw [t2, z2]
    · show (detectSpikesMulti thr ms ss rest (zApplyCol ms ss idx c df).2).2.zcols.map Prod.fst = _
      rw [t3, z3]
      simp

/-- C9 (confirmed): accessing `spikes` on a bound interval with a fresh
frame and an empty memo mutates the materialised table: the time and data
columns are unchanged and exactly the z-score columns are added —
`z_score` in the univariate case, `z_score_<c>` per series column in the
multivariate case — and they remain in `data_df` afterwards. -/
theorem spikes_adds_zscore_columns (i : ChangePointInterval) (df : DFrame)
    (h1 : i.dataDf = some df) (h2 : df.zcols = []) (h3 : i.allSpikes = none)
    (h4 : i.numSeries = 1 → (df.cols.lookup "value").isSome = true)
    (h5 : ¬ i.numSeries = 1 → (i.tsCols.map zColName).Nodup) :
    ∃ s df2, spikesProp i = .ok (s, { i with allSpikes := some s, dataDf := some df2 })
      ∧ df2.timeCol = df.timeCol ∧ df2.cols = df.cols
      ∧ df2.zcols.map Prod.fst
        = (if i.numSeries = 1 then ["z_score"] else i.tsCols.map zColName) := by
  by_cases hn : i.numSeries = 1
  · obtain ⟨vals, hv⟩ := Option.isSome_iff_exists.mp (h4 hn)
    have hd : detectSpikes i = .ok
        (.uni (spikeRows i.spikeStdThreshold df.timeCol vals
            (vals.map (fun v => ZScore.mk (v - (statScalar (meanVal i)).getD 0)
              ((statScalar (varianceVal i)).getD 0)))),
          { df with zcols := [("z_score",
            (vals.map (fun v => ZScore.mk (v - (statScalar (meanVal i)).getD 0)
              ((statScalar (varianceVal i)).getD 0))).map some)] }) := by
      simp only [detectSpikes, h1, hn, hv, h2, ite_true]
      rw [setZCol_fresh [] "z_score" _ (by simp)]
      simp
    refine ⟨.uni (spikeRows i.spikeStdThreshold df.timeCol vals
        (vals.map (fun v => ZScore.mk (v - (statScalar (meanVal i)).getD 0)
          ((statScalar (varianceVal i)).getD 0)))),
      { df with zcols := [("z_score",
        (vals.map (fun v => ZScore.mk (v - (statScalar (meanVal i)).getD 0)
          ((statScalar (varianceVal i)).getD 0))).map some)] },
      ?_, rfl, rfl, by simp [hn]⟩
    simp only [spikesProp, h3, hd]
  · have hm : meanVal i = .vector (i.tsCols.map (fun c => npMean (getColD df c))) := by
      simp [meanVal, hn, h1]
    obtain ⟨ssv, hsv⟩ : ∃ v, varianceVal i = .vector v := by
      by_cases hl : df.timeCol.length = 1 <;> simp [varianceVal, hn, h1, hl]
    have hd : detectSpikes i = .ok
        (.multi (detectSpikesMulti i.spikeStdThreshold
            (i.tsCols.map (fun c => npMean (getColD df c))) ssv i.tsCols.enum df).1,
          (detectSpikesMulti i.spikeStdThreshold
            (i.tsCols.map (fun c => npMean (getColD df c))) ssv i.tsCols.enum df).2) := by
      simp only [detectSpikes, h1, hn, hm, hsv, ite_false]
    have hmapnames : (i.tsCols.enum.map (fun p => zColName p.2)) = i.tsCols.map zColName := by
      show (List.enumFrom 0 i.tsCols).map (fun p => zColName p.2) = _
      exact enumFrom_map_snd zColName 0 i.tsCols
    have hfr : ∀ p ∈ i.tsCols.enum, ∀ q ∈ df.zcols, q.1 ≠ zColName p.2 := by
      intro p _ q hq
      rw [h2] at hq
      exact absurd hq (List.not_mem_nil q)
    have hnodup : (i.tsCols.enum.map (fun p => zColName p.2)).Nodup := by
      rw [hmapnames]
      exact h5 hn
    obtain ⟨t1, t2, t3⟩ := detectSpikesMulti_frame i.spikeStdThreshold
      (i.tsCols.map (fun c => npMean (getColD df c))) ssv i.tsCols.enum df hfr hnodup
    refine ⟨.multi (detectSpikesMulti i.spikeStdThreshold
        (i.tsCols.map (fun c => npMean (getColD df c))) ssv i.tsCols.enum df).1,
      (detectSpikesMulti i.spikeStdThreshold
        (i.tsCols.map (fun c => npMean (getColD df c))) ssv i.tsCols.enum df).2,
      ?_, t1, t2, ?_⟩
    · simp only [spikesProp, h3, hd]
    · rw [t3, h2, hmapnames]
      simp [hn]

theorem spikes_adds_zscore_columns_witness :
    c9i.dataDf = some c9df ∧ c9df.zcols = [] ∧ c9i.allSpikes = none
    ∧ ∃ s df2, spikesProp c9i = .ok (s, { c9i with allSpikes := some s, dataDf := some df2 })
        ∧ df2.timeCol = c9df.timeCol ∧ df2.cols = c9df.cols
        ∧ df2.zcols.map Prod.fst = (if c9i.numSeries = 1 then ["z_score"]
                                    else c9i.tsCols.map zColName) := by
  have hdf : c9i.dataDf = some c9df := by
    norm_num [c9i, c9df, setData, keepWhere, inBound, rawColumns, List.filterMap]
  have hsome : c9i.numSeries = 1 → (c9df.cols.lookup "value").isSome = true := by
    intro _
    norm_num [c9df]
  have hnd : ¬ c9i.numSeries = 1 → (c9i.tsCols.map zColName).Nodup := by
    intro hcontra
    exact absurd (by norm_num [c9i, setData] : c9i.numSeries = 1) hcontra
  exact ⟨hdf, rfl, rfl,
    spikes_adds_zscore_columns c9i c9df hdf rfl rfl hsome hnd⟩
